import Mathlib

/-
Verification of the collegescvis core (interface.py, validator.py):
a shallow embedding of the database query layer (PlotSettings.query_db),
the series expansion (SeriesPlot.get_xy_data), the plot layout pass
(MainWindow.update_figure, get_y_limits, build_figure), the catalog
construction (PlotSettings._get_data_types) and the raw-data validator
(Validator.check_raw_data), together with theorems about the testable
properties of the specification.
-/

namespace CollegeScvis

/-- A SQL value: NULL, a numeric (INTEGER or REAL, modelled as a rational),
or a TEXT value. -/
inductive Val where
  | null : Val
  | num : ℚ → Val
  | text : String → Val
deriving DecidableEq

/-- A database row: an association of column names to values. -/
abbrev Row := List (String × Val)

/-- Value of column `c` in row `r`; a column absent from the row reads as
NULL (the catalog guarantees selected columns exist in the queried table). -/
def getCol (r : Row) (c : String) : Val :=
  match r.find? (fun p => p.1 == c) with
  | some p => p.2
  | none => Val.null

/-- The backing store: the College entity table and one table per year,
keyed by the year (year table names are the literal decimal year strings;
modelled here with Nat keys). -/
structure DB where
  college : List Row
  yearTables : List (Nat × List Row)

/-- SeriesPlot from interface.py: one user-requested series. Year strings
are modelled as the Nat they parse to. `data` is the list of values
retrieved by query_db. -/
structure SeriesPlot where
  college : String
  data_type : String
  start_year : Nat
  end_year : Nat
  is_college : Bool
  data : List Val
deriving DecidableEq

/-- The inclusive year range `list(range(int(start_year), int(end_year) + 1))`
of query_db and
get_xy_data. -/
def yearsBetween (start_year end_year : Nat) : List Nat :=
  (List.range (end_year + 1 - start_year)).map (start_year + ·)

/-- The entity lookup `SELECT data_type FROM College WHERE INSTNM = ?`:
the rows of the
College table whose INSTNM equals the college name, projected to the
requested column. -/
def collegeQuery (db : DB) (data_type college : String) : List Val :=
  (db.college.filter (fun r => decide (getCol r "INSTNM" = Val.text college))).map
    (fun r => getCol r data_type)

/-- The join in query_db:
`SELECT data_type FROM "year" JOIN College WHERE
 "year".college_id = College.college_id AND INSTNM = ?`.
A nested loop over the year table rows and the College rows, keeping the
pairs whose college_id columns agree and whose INSTNM matches. -/
def joinQuery (tbl collegeTbl : List Row) (data_type college : String) : List Val :=
  tbl.flatMap (fun yr =>
    collegeTbl.filterMap (fun cr =>
      if getCol yr "college_id" = getCol cr "college_id" ∧
          getCol cr "INSTNM" = Val.text college
      then some (getCol yr data_type) else none))

/-- One per-year lookup of query_db. `none` models the sqlite error raised
when the named year table does not exist. -/
def yearQuery (db : DB) (data_type : String) (year : Nat) (college : String) :
    Option (List Val) :=
  (db.yearTables.lookup year).map (fun tbl => joinQuery tbl db.college data_type college)

/-- The year loop of query_db for one non-college series: values of all
years are appended in order, and one diagnostic is printed per year whose
query returns zero rows. The second component counts the diagnostics. -/
def queryYears (db : DB) (data_type college : String) : List Nat → Option (List Val × Nat)
  | [] => some ([], 0)
  | y :: ys => do
      let results ← yearQuery db data_type y college
      let (d, g) ← queryYears db data_type college ys
      pure (results ++ d, (if results.length = 0 then 1 else 0) + g)

/-- PlotSettings.query_db restricted to a single series: the retrieved
data list together with the number of No-data-found diagnostics printed
for this series. `none` models a raised sqlite error. -/
def queryOne (db : DB) (s : SeriesPlot) : Option (List Val × Nat) :=
  if s.is_college then
    let results := collegeQuery db s.data_type s.college
    some (results, if results.length = 0 then 1 else 0)
  else
    queryYears db s.data_type s.college (yearsBetween s.start_year s.end_year)

/-- PlotSettings.query_db: the sequential loop over all requested series.
An exception raised for one series aborts the whole batch (modelled by
`none`). -/
def query_db (db : DB) : List SeriesPlot → Option (List (List Val × Nat))
  | [] => some []
  | s :: rest => do
      let r ← queryOne db s
      let rs ← query_db db rest
      pure (r :: rs)

/-- SeriesPlot.get_xy_data. For a college (entity-scoped) series the single
retrieved value `self.data[0]` is broadcast over the year range; `none`
models the IndexError raised when `data` is empty and the year range is
not empty. For a year-scoped series the retrieved data is returned as is. -/
def get_xy_data (s : SeriesPlot) : Option (List Nat × List Val) :=
  let x_data := yearsBetween s.start_year s.end_year
  if s.is_college then
    (x_data.mapM (fun _ => s.data.head?)).map (fun y_data => (x_data, y_data))
  else
    some (x_data, s.data)

/-- The numeric content of a value; `none` for NULL or TEXT (a TEXT value
reaching min/max arithmetic would raise a TypeError, and text columns are
excluded from the catalog). -/
def asNum : Val → Option ℚ
  | Val.num q => some q
  | _ => none

/-- The numeric readings of a list of values; `none` as soon as one value
is not numeric. -/
def numsOf : List Val → Option (List ℚ)
  | [] => some []
  | v :: vs => do
      let q ← asNum v
      let qs ← numsOf vs
      pure (q :: qs)

/-- MainWindow.get_y_limits: non-null values are kept, and the limits are
`(min(clean) * 0.9, max(clean) * 1.1)`. `none` models the ValueError
raised by `min`/`max` on an empty sequence (or a TypeError on TEXT data). -/
def get_y_limits (y_data : List Val) : Option (ℚ × ℚ) := do
  let clean := y_data.filter (fun y => decide (y ≠ Val.null))
  let nums ← numsOf clean
  let mn ← nums.min?
  let mx ← nums.max?
  pure (mn * (9 / 10), mx * (11 / 10))

/-- The color palette of update_figure. -/
def colors : List String := ["b", "g", "r", "c", "m", "y", "k"]

/-- The marker palette of update_figure. -/
def markers : List String := ["o", "s", "^"]

/-- The color pick `colors[count % len(colors)]`; always in range. -/
def seriesColor (count : Nat) : Option String := colors.get? (count % colors.length)

/-- The marker pick `markers[int(count / len(colors))]`; `none` models the IndexError
raised once 21 series have been plotted. -/
def seriesMarker (count : Nat) : Option String := markers.get? (count / colors.length)

/-- The popup message of update_figure for a series without data. -/
def diagMsg (s : SeriesPlot) : String :=
  s.data_type ++ " data does not exist for " ++ s.college ++ " for years " ++
    toString s.start_year ++ "-" ++ toString s.end_year ++ ". Data will not appear in plot."

/-- One scatter plot drawn on an axis. -/
structure ScatterData where
  x_data : List Nat
  y_data : List Val
  color : String
  marker : String
  label : String
deriving DecidableEq

/-- The state of one axes object after update_figure. The geometric spine
offsets and margin adjustments for the third and later axes are purely
positional and are not modelled. -/
structure AxisState where
  axis_off : Bool := false
  scatter : Option ScatterData := none
  ylim : Option (ℚ × ℚ) := none
  ylabel : Option (String × String) := none
deriving DecidableEq

/-- The state of the figure: caption, shared x limits, axes, assembled
legend labels and popup diagnostics raised during the pass. -/
structure FigureState where
  suptitle : String
  xlim : Option (Int × Int)
  axes : List AxisState
  legend : List String
  diagnostics : List String
deriving DecidableEq

/-- The body of the per-series loop of update_figure. The accumulator is
(axes states so far, diagnostics so far, count of plotted series). A
series whose y data is empty, or is a single None, gets its axis turned
off and one popup; otherwise the series is drawn with the color/marker for
its plotted position and its y limits. `none` models an uncaught
exception (IndexError in get_xy_data, ValueError in get_y_limits,
IndexError on the marker list). -/
def processSeries (acc : List AxisState × List String × Nat) (s : SeriesPlot) :
    Option (List AxisState × List String × Nat) := do
  let (axes, diags, count) := acc
  let (x_data, y_data) ← get_xy_data s
  if y_data.length = 0 ∨ (y_data.length = 1 ∧ y_data.head? = some Val.null) then
    pure (axes ++ [{ axis_off := true }], diags ++ [diagMsg s], count)
  else do
    let color ← seriesColor count
    let marker ← seriesMarker count
    let lims ← get_y_limits y_data
    pure (axes ++ [{ scatter := some ⟨x_data, y_data, color, marker,
                       s.college ++ " " ++ s.data_type⟩,
                     ylim := some lims, ylabel := some (s.data_type, color) }],
          diags, count + 1)

/-- PlotSettings._get_year_range: fold over the requested series with the
sentinel bounds (10000, 0). -/
def get_year_range (series_plots : List SeriesPlot) : Nat × Nat :=
  series_plots.foldl
    (fun mm s => (if s.start_year < mm.1 then s.start_year else mm.1,
                  if mm.2 < s.end_year then s.end_year else mm.2))
    (10000, 0)

/-- The startup caption of build_figure. -/
def instructionalCaption : String :=
  "Use the menubar above (Plot => New Plot) to plot data."

/-- MainWindow.build_figure: the initial figure has no axes and the
centered instructional caption. -/
def build_figure : FigureState :=
  { suptitle := instructionalCaption, xlim := none, axes := [], legend := [],
    diagnostics := [] }

/-- MainWindow.update_figure as a function of the requested series list
(each already carrying its queried data). The pass first deletes every
axes of the previous figure and blanks the suptitle, so the result does
not depend on the previous figure state. One parent axes plus one twinned
axes per further series is created (the parent axes alone when the list is
empty); the legend collects the labels of every axis that drew a labeled
scatter, in axis order. `none` models an uncaught exception. -/
def update_figure (series_list : List SeriesPlot) : Option FigureState := do
  let yr := get_year_range series_list
  let res ← series_list.foldlM processSeries ([], [], 0)
  let axes := if series_list.length = 0 then [{}] else res.1
  pure { suptitle := "",
         xlim := some ((yr.1 : Int) - 1, (yr.2 : Int) + 1),
         axes := axes,
         legend := axes.filterMap (fun a => a.scatter.map ScatterData.label),
         diagnostics := res.2.1 }

/-- Modelled from the spec: the Empty placeholder state of the figure
state machine --- no axes and the centered instructional caption. -/
def isEmptyState (f : FigureState) : Bool :=
  f.axes.isEmpty && f.suptitle == instructionalCaption

/-- One column reported by `PRAGMA table_info`: entry[1] is the column
name, entry[2] its declared type. -/
structure ColumnInfo where
  cname : String
  ctype : String
deriving DecidableEq

/-- The College-table part of PlotSettings._get_data_types: columns that
are not TEXT and not college_id, in order. -/
def entityFields (collegeCols : List ColumnInfo) : List String :=
  (collegeCols.filter
    (fun e => decide (e.ctype ≠ "TEXT" ∧ e.cname ≠ "college_id"))).map (·.cname)

/-- The year-table part of PlotSettings._get_data_types: the first column
(the duplicate college_id) is dropped, then non-TEXT columns are kept. -/
def yearFields (yearCols : List ColumnInfo) : List String :=
  ((yearCols.drop 1).filter (fun e => decide (e.ctype ≠ "TEXT"))).map (·.cname)

/-- PlotSettings._get_data_types taken in isolation: the selectable field
list (entity fields first, then year fields) and the boundary this method
assigns, `max_college_data_index = len(data_types) - 1`, taken while
data_types holds only the College fields (interface.py:317). Note that
__init__ overwrites this boundary with 0 right after the method returns
(interface.py:245); see plotSettingsInit. -/
def getDataTypes (collegeCols yearCols : List ColumnInfo) : List String × Int :=
  (entityFields collegeCols ++ yearFields yearCols,
   (entityFields collegeCols).length - 1)

/-- The catalog-relevant state of a PlotSettings object. -/
structure PlotSettingsState where
  data_types : List String
  max_college_data_index : Int
deriving DecidableEq

/-- The PlotSettings.__init__ sequence that builds the catalog: the call
self._get_data_types() (interface.py:243) fills data_types and sets
max_college_data_index to the greatest entity index, and then
`self.max_college_data_index = 0` (interface.py:245) overwrites the
boundary with 0. Nothing assigns it afterwards, so the boundary actually
recorded for classification is always 0. -/
def plotSettingsInit (collegeCols yearCols : List ColumnInfo) : PlotSettingsState :=
  let afterGetDataTypes : PlotSettingsState :=
    { data_types := (getDataTypes collegeCols yearCols).1,
      max_college_data_index := (getDataTypes collegeCols yearCols).2 }
  { afterGetDataTypes with max_college_data_index := 0 }

/-- SeriesOptions.get_series classification:
`databox.currentIndex() <= max_college_data_index`. -/
def isCollegeIndex (boundary : Int) (i : Nat) : Bool :=
  decide ((i : Int) ≤ boundary)

/-- The split `line.split(',')` on the character sequence of a line: each comma
closes the current entry and opens a new one, so a line with n commas
yields n + 1 entries (Python split semantics for a non-empty separator). -/
def splitCommas : List Char → List (List Char)
  | [] => [[]]
  | c :: cs =>
      let r := splitCommas cs
      if c = ',' then [] :: r
      else
        match r with
        | [] => [[c]]
        | e :: es => (c :: e) :: es

/-- The entry count `len(line.split(','))` for one line of the raw data file. -/
def splitLen (line : String) : Nat := (splitCommas line.data).length

/-- Validator.check_raw_data: the entry count of every line is compared
with that of the first line; the first differing line raises a
ValueError. An empty file raises an IndexError at `raw_data_lines[0]`. -/
def check_raw_data (raw_data_lines : List String) : Except String Unit :=
  match raw_data_lines with
  | [] => Except.error "IndexError"
  | l0 :: _ =>
    let entries := splitLen l0
    match raw_data_lines.find? (fun l => decide (splitLen l ≠ entries)) with
    | some _ => Except.error "Incorrect number of entries in raw data line."
    | none => Except.ok ()

/-- Length of the inclusive year range. -/
lemma yearsBetween_length (s e : Nat) : (yearsBetween s e).length = e + 1 - s := by
  simp [yearsBetween]

/-- A singleton range holds exactly its one year. -/
lemma yearsBetween_self (s : Nat) : yearsBetween s s = [s] := by
  simp [yearsBetween, List.range_succ]

/-- A reversed range is empty. -/
lemma yearsBetween_nil (s e : Nat) (h : e < s) : yearsBetween s e = [] := by
  simp [yearsBetween, Nat.sub_eq_zero_of_le h]

/-- Example database: one college row with an entity-scoped FOUNDED value. -/
def dbAlpha : DB :=
  { college := [[("college_id", Val.num 1), ("INSTNM", Val.text "Alpha"),
                 ("FOUNDED", Val.num 7)]],
    yearTables := [] }

/-- An entity-scoped request for a college the table contains. -/
def sFounded : SeriesPlot := ⟨"Alpha", "FOUNDED", 2000, 2001, true, []⟩

/-- An entity-scoped request for a college the table does not contain. -/
def sFoundedBad : SeriesPlot := ⟨"Beta", "FOUNDED", 2000, 2001, true, []⟩

/-- C1: entity-scoped broadcast. When the entity lookup matched a row, the
x sequence has length Y2 - Y1 + 1 and every y value is the one retrieved
constant. When no row matched, however, the resulting series is not empty:
query_db leaves data empty and get_xy_data then raises an IndexError at
`self.data[0]` (modelled by `none`), before the no-data guard of
update_figure can run. -/
theorem thm_C1 :
    queryOne dbAlpha sFounded = some ([Val.num 7], 0) ∧
    get_xy_data { sFounded with data := [Val.num 7] } =
      some ([2000, 2001], [Val.num 7, Val.num 7]) ∧
    queryOne dbAlpha sFoundedBad = some ([], 1) ∧
    get_xy_data { sFoundedBad with data := [] } = none := by
  refine ⟨by decide, by decide, by decide, by decide⟩

/-- A year-scoped series resolved to two NULL values. -/
def sNull2 : SeriesPlot := ⟨"Alpha", "ENROLL", 2000, 2001, false, [Val.null, Val.null]⟩

/-- A year-scoped series resolved to no values at all. -/
def sEmptyY : SeriesPlot := ⟨"Alpha", "ENROLL", 2000, 2001, false, []⟩

/-- A year-scoped series resolved to a single NULL value. -/
def sNull1 : SeriesPlot := ⟨"Alpha", "GRAD", 2000, 2000, false, [Val.null]⟩

/-- C2: the no-data guard of update_figure only covers an empty y sequence
or a singleton None: those two cases get the axis turned off, exactly one
popup diagnostic naming the data type, college and year range, and no
scatter or legend entry. A series of two or more values that are all null
passes the guard and update_figure then raises a ValueError inside
get_y_limits (min of an empty sequence), modelled by `none`. -/
theorem thm_C2 :
    update_figure [sNull2] = none ∧
    update_figure [sEmptyY] =
      some { suptitle := "", xlim := some (1999, 2002),
             axes := [{ axis_off := true }], legend := [],
             diagnostics :=
               ["ENROLL data does not exist for Alpha for years 2000-2001. Data will not appear in plot."] } ∧
    update_figure [sNull1] =
      some { suptitle := "", xlim := some (1999, 2001),
             axes := [{ axis_off := true }], legend := [],
             diagnostics :=
               ["GRAD data does not exist for Alpha for years 2000-2000. Data will not appear in plot."] } := by
  refine ⟨by decide, by decide, by decide⟩

/-- C3 counterexample: a render request with an empty series list does not
produce the Empty placeholder state. -/
theorem thm_C3_counterexample :
    (update_figure ([] : List SeriesPlot)).map isEmptyState = some false := by
  decide

/-- C3 amended: only the startup figure built by build_figure is the Empty
placeholder (no axes, instructional caption). A render request with an
empty series list instead clears the previous axes and title and creates
one fresh parent axes with the sentinel x limits 9999..1 and an empty
legend; no axes or legend entries of the previous render survive, but the
placeholder caption is not restored. -/
theorem thm_C3_amended :
    update_figure ([] : List SeriesPlot) =
      some { suptitle := "", xlim := some (9999, 1), axes := [{}], legend := [],
             diagnostics := [] } ∧
    build_figure.axes = [] ∧
    build_figure.suptitle = instructionalCaption ∧
    isEmptyState build_figure = true := by
  refine ⟨by decide, rfl, rfl, by decide⟩

/-- Twenty-one one-valued year-scoped series, all plottable. -/
def batch21 : List SeriesPlot :=
  (List.range 21).map (fun i => ⟨"C", "F" ++ toString i, 2000, 2000, false, [Val.num 1]⟩)

/-- C7: for the first 21 plotted series the color is palette entry
count mod 7 and the marker is palette entry floor(count / 7), both always
defined; colors repeat with period 7 and no two of the 21 (color, marker)
pairs coincide. Rendering 21 plottable series realizes exactly this
assignment on the drawn scatters, in order. -/
theorem thm_C7 :
    ((List.range 21).all (fun i =>
      (seriesColor i == colors[i % 7]?) &&
      (seriesMarker i == markers[i / 7]?) &&
      (seriesColor i).isSome && (seriesMarker i).isSome)) = true ∧
    ((List.range 14).all (fun i => seriesColor (i + 7) == seriesColor i)) = true ∧
    ((List.range 21).map (fun i => (seriesColor i, seriesMarker i))).Nodup ∧
    (update_figure batch21).map
        (fun f => f.axes.filterMap (fun a => a.scatter.map (fun sc => (sc.color, sc.marker)))) =
      some ((List.range 21).map (fun i => (colors.getD (i % 7) "", markers.getD (i / 7) ""))) := by
  refine ⟨by decide, by decide, by decide, by decide⟩

/-- A list of numeric values reads back as exactly its numbers. -/
lemma numsOf_map_num (q : List ℚ) : numsOf (q.map Val.num) = some q := by
  induction q with
  | nil => rfl
  | cons a l ih => simp [numsOf, asNum, ih]

/-- C8: for a non-empty sequence of non-null (numeric) y values, the
computed y axis limits are exactly (min times 0.9, max times 1.1). -/
theorem thm_C8 (q : List ℚ) (mn mx : ℚ)
    (hmn : q.min? = some mn) (hmx : q.max? = some mx) :
    get_y_limits (q.map Val.num) = some (mn * (9 / 10), mx * (11 / 10)) := by
  have hfilter : List.filter (fun y => !decide (y = Val.null)) (q.map Val.num)
      = q.map Val.num := by
    rw [List.filter_eq_self]
    intro a ha
    obtain ⟨b, _, rfl⟩ := List.mem_map.mp ha
    simp
  simp [get_y_limits, hfilter, numsOf_map_num, hmn, hmx]

/-- C8 witness: the limits for y values [10, 20, 30] are [9.0, 33.0]. -/
theorem thm_C8_witness :
    get_y_limits [Val.num 10, Val.num 20, Val.num 30] = some (9, 33) := by
  have h := thm_C8 [10, 20, 30] 10 30 (by decide) (by decide)
  rw [show ([Val.num 10, Val.num 20, Val.num 30] : List Val)
      = [(10 : ℚ), 20, 30].map Val.num by decide] at *
  rw [h]
  norm_num

/-- check_raw_data on a non-empty file reduces to the search for a line
whose entry count differs from that of the first line. -/
lemma check_raw_data_cons (l0 : String) (rest : List String) :
    check_raw_data (l0 :: rest) =
      (match (l0 :: rest).find? (fun l => decide (splitLen l ≠ splitLen l0)) with
       | some _ => Except.error "Incorrect number of entries in raw data line."
       | none => Except.ok ()) := rfl

/-- C9: on a non-empty raw data file, check_raw_data raises its ValueError
exactly when some line, split on commas, has a different number of entries
than the first line, and completes without raising otherwise. -/
theorem thm_C9 (lines : List String) (l0 : String) (rest : List String)
    (h : lines = l0 :: rest) :
    (check_raw_data lines = Except.ok () ↔ ∀ l ∈ lines, splitLen l = splitLen l0) ∧
    (check_raw_data lines = Except.error "Incorrect number of entries in raw data line." ↔
      ∃ l ∈ lines, splitLen l ≠ splitLen l0) := by
  subst h
  cases hf : (l0 :: rest).find? (fun l => decide (splitLen l ≠ splitLen l0)) with
  | none =>
    have hall : ∀ l ∈ l0 :: rest, splitLen l = splitLen l0 := by
      intro l hl
      have := List.find?_eq_none.mp hf l hl
      simpa using this
    have hok : check_raw_data (l0 :: rest) = Except.ok () := by
      rw [check_raw_data_cons, hf]
    refine ⟨⟨fun _ => hall, fun _ => hok⟩, ?_, ?_⟩
    · intro he
      rw [hok] at he
      cases he
    · rintro ⟨l, hl, hne⟩
      exact absurd (hall l hl) hne
  | some w =>
    have hw : splitLen w ≠ splitLen l0 := by simpa using List.find?_some hf
    have hwm : w ∈ l0 :: rest := List.mem_of_find?_eq_some hf
    have herr : check_raw_data (l0 :: rest) =
        Except.error "Incorrect number of entries in raw data line." := by
      rw [check_raw_data_cons, hf]
    refine ⟨⟨fun hok => ?_, fun hall => absurd (hall w hwm) hw⟩,
            fun _ => ⟨w, hwm, hw⟩, fun _ => herr⟩
    rw [herr] at hok
    cases hok

/-- C9 witness: a file whose second line has three entries against two in
the first line raises, and a consistent file does not. -/
theorem thm_C9_witness :
    check_raw_data ["a,b", "c,d,e"] =
      Except.error "Incorrect number of entries in raw data line." ∧
    check_raw_data ["a,b", "c,d"] = Except.ok () := by
  constructor
  · exact (thm_C9 ["a,b", "c,d,e"] "a,b" ["c,d,e"] rfl).2.mpr
      ⟨"c,d,e", by decide, by decide⟩
  · exact (thm_C9 ["a,b", "c,d"] "a,b" ["c,d"] rfl).1.mpr (by decide)

/-- Example College table schema: identifier, a TEXT name column and two
numeric entity columns. -/
def ccExample : List ColumnInfo :=
  [⟨"college_id", "INTEGER"⟩, ⟨"INSTNM", "TEXT"⟩, ⟨"A_VAL", "INTEGER"⟩, ⟨"B_VAL", "REAL"⟩]

/-- Example year table schema: identifier plus one numeric column. -/
def ycExample : List ColumnInfo :=
  [⟨"college_id", "INTEGER"⟩, ⟨"C_VAL", "INTEGER"⟩]

/-- C4 counterexample: after __init__, the recorded boundary is 0 --- the
value set by _get_data_types is overwritten by the reset at
interface.py:245. For the example schema the catalog is
[A_VAL, B_VAL, C_VAL]. The field at position 0, A_VAL, sits at (hence at
or after) the recorded boundary index, yet it is an entity-scoped College
field and is classified entity-scoped, so it is not year-scoped as the
claim requires; and the field at position 1, B_VAL, is likewise an
entity-scoped College field although the claim calls every field at or
after the boundary year-scoped (the boundary-0 classification indeed
treats it as year-scoped, misclassifying it). -/
theorem thm_C4_counterexample :
    (plotSettingsInit ccExample ycExample).max_college_data_index = 0 ∧
    (plotSettingsInit ccExample ycExample).data_types = ["A_VAL", "B_VAL", "C_VAL"] ∧
    isCollegeIndex 0 0 = true ∧
    "A_VAL" ∈ entityFields ccExample ∧
    isCollegeIndex 0 1 = false ∧
    "B_VAL" ∈ entityFields ccExample := by
  refine ⟨by decide, by decide, by decide, by decide, by decide, by decide⟩

/-- C4 amended: the boundary _get_data_types records (entity count minus
one) is overwritten with 0 by __init__ immediately after the call, so the
boundary actually used by get_series is always 0: exactly the field at
position 0 is classified entity-scoped and every later position is
classified year-scoped, whatever the real partition is. The catalog still
lists the entity fields first, none of them the college_id column or a
TEXT-typed column; consequently, whenever the catalog has two or more
entity fields, the entity fields at positions 1 up to count - 1 are
classified year-scoped, against their actual scope. -/
theorem thm_C4_amended (cc yc : List ColumnInfo) :
    (plotSettingsInit cc yc).max_college_data_index = 0 ∧
    (plotSettingsInit cc yc).data_types = entityFields cc ++ yearFields yc ∧
    (∀ i : Nat,
      isCollegeIndex (plotSettingsInit cc yc).max_college_data_index i = true ↔ i = 0) ∧
    (∀ f ∈ entityFields cc,
      f ≠ "college_id" ∧ ∃ col ∈ cc, col.cname = f ∧ col.ctype ≠ "TEXT") ∧
    (∀ i : Nat, 1 ≤ i → i < (entityFields cc).length →
      isCollegeIndex (plotSettingsInit cc yc).max_college_data_index i = false ∧
      ((plotSettingsInit cc yc).data_types)[i]? = (entityFields cc)[i]?) := by
  have hb : (plotSettingsInit cc yc).max_college_data_index = 0 := rfl
  refine ⟨hb, rfl, ?_, ?_, ?_⟩
  · intro i
    rw [hb]
    simp only [isCollegeIndex, decide_eq_true_eq]
    omega
  · intro f hf
    simp only [entityFields, List.mem_map, List.mem_filter, decide_eq_true_eq] at hf
    obtain ⟨col, ⟨hcm, ht, hn⟩, rfl⟩ := hf
    exact ⟨hn, col, hcm, rfl, ht⟩
  · intro i h1 h2
    rw [hb]
    refine ⟨?_, List.getElem?_append_left h2⟩
    simp only [isCollegeIndex, decide_eq_false_iff_not]
    omega

/-- C4 amended witness: on the example schema the recorded boundary after
initialization is 0; position 1 holds the entity field B_VAL of the
catalog, yet is classified year-scoped; and B_VAL is a non-identifier,
non-TEXT College column. -/
theorem thm_C4_amended_witness :
    (plotSettingsInit ccExample ycExample).max_college_data_index = 0 ∧
    (isCollegeIndex (plotSettingsInit ccExample ycExample).max_college_data_index 1 = false ∧
      ((plotSettingsInit ccExample ycExample).data_types)[1]? = (entityFields ccExample)[1]?) ∧
    ("B_VAL" ≠ "college_id" ∧
      ∃ col ∈ ccExample, col.cname = "B_VAL" ∧ col.ctype ≠ "TEXT") :=
  ⟨(thm_C4_amended ccExample ycExample).1,
   (thm_C4_amended ccExample ycExample).2.2.2.2 1 (by decide) (by decide),
   (thm_C4_amended ccExample ycExample).2.2.2.1 "B_VAL" (by decide)⟩

/-- Two members of a list of length at most one coincide. -/
lemma mem_eq_of_length_le_one {α : Type} {l : List α} (h : l.length ≤ 1)
    {a b : α} (ha : a ∈ l) (hb : b ∈ l) : a = b := by
  cases l with
  | nil => cases ha
  | cons x xs =>
    cases xs with
    | nil =>
      rw [List.mem_singleton] at ha hb
      rw [ha, hb]
    | cons y ys => simp at h

/-- A filterMap whose hits all satisfy a filter is no longer than that
filter. -/
lemma length_filterMap_le_filter {α β : Type} (l : List α) (g : α → Option β)
    (p : α → Bool) (h : ∀ a ∈ l, (g a).isSome → p a = true) :
    (l.filterMap g).length ≤ (l.filter p).length := by
  induction l with
  | nil => simp
  | cons a l ih =>
    have ih' := ih (fun x hx hs => h x (List.mem_cons_of_mem _ hx) hs)
    cases hg : g a with
    | none =>
      rw [List.filterMap_cons_none hg]
      cases hp : p a with
      | false => rw [List.filter_cons_of_neg (by simp [hp])]; exact ih'
      | true =>
        rw [List.filter_cons_of_pos hp]
        exact ih'.trans (Nat.le_succ _)
    | some b =>
      have hpa : p a = true := h a (List.mem_cons_self _ _) (by simp [hg])
      rw [List.filterMap_cons_some hg, List.filter_cons_of_pos hpa]
      simpa using ih'

/-- The uniqueness the College table schema provides: at most one row
carries a given INSTNM. -/
def uniqINSTNM (collegeTbl : List Row) (c : String) : Prop :=
  (collegeTbl.filter (fun r => decide (getCol r "INSTNM" = Val.text c))).length ≤ 1

/-- The uniqueness a year table schema provides: college_id values are
pairwise distinct. -/
def uniqCollegeId (tbl : List Row) : Prop :=
  tbl.Pairwise (fun a b => getCol a "college_id" ≠ getCol b "college_id")

/-- Under the schema uniqueness assumptions, the join of one year table
with the College table filtered on one college name yields at most one
row. -/
lemma joinQuery_length_le_one (tbl collegeTbl : List Row) (dt c : String)
    (hC : uniqINSTNM collegeTbl c) (hT : uniqCollegeId tbl) :
    (joinQuery tbl collegeTbl dt c).length ≤ 1 := by
  induction tbl with
  | nil => simp [joinQuery]
  | cons yr rest ih =>
    rw [uniqCollegeId, List.pairwise_cons] at hT
    obtain ⟨hyr, hrest⟩ := hT
    have ih' := ih hrest
    rw [joinQuery, List.flatMap_cons]
    by_cases hFe : collegeTbl.filterMap (fun cr =>
        if getCol yr "college_id" = getCol cr "college_id" ∧
            getCol cr "INSTNM" = Val.text c
        then some (getCol yr dt) else none) = []
    · rw [hFe, List.nil_append]
      exact ih'
    · obtain ⟨cr, hcrm, hcr⟩ : ∃ cr ∈ collegeTbl,
          (if getCol yr "college_id" = getCol cr "college_id" ∧
              getCol cr "INSTNM" = Val.text c
           then some (getCol yr dt) else none) ≠ none := by
        by_contra hno
        push_neg at hno
        exact hFe (List.filterMap_eq_nil_iff.mpr hno)
      have hcond : getCol yr "college_id" = getCol cr "college_id" ∧
          getCol cr "INSTNM" = Val.text c := by
        by_contra hc
        simp [hc] at hcr
      have hrest_nil : List.flatMap rest (fun yr2 =>
          collegeTbl.filterMap (fun cr2 =>
            if getCol yr2 "college_id" = getCol cr2 "college_id" ∧
                getCol cr2 "INSTNM" = Val.text c
            then some (getCol yr2 dt) else none)) = [] := by
        rw [List.flatMap_eq_nil_iff]
        intro yr2 hyr2
        rw [List.filterMap_eq_nil_iff]
        intro cr2 hcr2m
        by_contra hbad
        have hcond2 : getCol yr2 "college_id" = getCol cr2 "college_id" ∧
            getCol cr2 "INSTNM" = Val.text c := by
          by_contra hc
          simp [hc] at hbad
        have hcrf : cr ∈ collegeTbl.filter
            (fun r => decide (getCol r "INSTNM" = Val.text c)) :=
          List.mem_filter.mpr ⟨hcrm, by simp [hcond.2]⟩
        have hcr2f : cr2 ∈ collegeTbl.filter
            (fun r => decide (getCol r "INSTNM" = Val.text c)) :=
          List.mem_filter.mpr ⟨hcr2m, by simp [hcond2.2]⟩
        have heq : cr = cr2 := mem_eq_of_length_le_one hC hcrf hcr2f
        have : getCol yr "college_id" = getCol yr2 "college_id" := by
          rw [hcond.1, hcond2.1, heq]
        exact hyr yr2 hyr2 this
      rw [hrest_nil, List.append_nil]
      have : (collegeTbl.filterMap (fun cr =>
          if getCol yr "college_id" = getCol cr "college_id" ∧
              getCol cr "INSTNM" = Val.text c
          then some (getCol yr dt) else none)).length ≤
          (collegeTbl.filter
            (fun r => decide (getCol r "INSTNM" = Val.text c))).length := by
        apply length_filterMap_le_filter
        intro a _ hs
        by_cases hc : getCol yr "college_id" = getCol a "college_id" ∧
            getCol a "INSTNM" = Val.text c
        · simp [hc.2]
        · simp [hc] at hs
      exact this.trans hC

/-- When every year in the range matches zero rows, the year loop ends
with no data and one diagnostic per year. -/
lemma queryYears_all_empty (db : DB) (dt c : String) (ys : List Nat) :
    (∀ y ∈ ys, yearQuery db dt y c = some []) →
    queryYears db dt c ys = some ([], ys.length) := by
  induction ys with
  | nil => intro _; rfl
  | cons y ys ih =>
    intro h
    have hy := h y (List.mem_cons_self _ _)
    have ih' := ih (fun z hz => h z (List.mem_cons_of_mem _ hz))
    simp [queryYears, hy, ih', Nat.add_comm]

/-- When every year table in the range exists, the year loop returns the
concatenation of the per-year query results, in range order. -/
lemma queryYears_join (db : DB) (dt c : String) (ys : List Nat) :
    (∀ y ∈ ys, (yearQuery db dt y c).isSome) →
    ∃ g, queryYears db dt c ys =
      some ((ys.map (fun y => (yearQuery db dt y c).getD [])).flatten, g) := by
  induction ys with
  | nil => intro _; exact ⟨0, rfl⟩
  | cons y ys ih =>
    intro h
    obtain ⟨r, hr⟩ := Option.isSome_iff_exists.mp (h y (List.mem_cons_self _ _))
    obtain ⟨g, hg⟩ := ih (fun z hz => h z (List.mem_cons_of_mem _ hz))
    refine ⟨(if r.length = 0 then 1 else 0) + g, ?_⟩
    simp [queryYears, hr, hg]

/-- A list of naturals bounded by one sums to at most its length. -/
lemma sum_le_length (l : List Nat) : (∀ x ∈ l, x ≤ 1) → l.sum ≤ l.length := by
  induction l with
  | nil => simp
  | cons a t ih =>
    intro h
    have ha := h a (List.mem_cons_self _ _)
    have ih' := ih (fun x hx => h x (List.mem_cons_of_mem _ hx))
    simp only [List.sum_cons, List.length_cons]
    omega

/-- A list of naturals bounded by one sums to its length exactly when
every entry is one. -/
lemma length_eq_sum_iff (l : List Nat) : (∀ x ∈ l, x ≤ 1) →
    (l.length = l.sum ↔ ∀ x ∈ l, x = 1) := by
  induction l with
  | nil => simp
  | cons a t ih =>
    intro h
    have ha := h a (List.mem_cons_self _ _)
    have ht : ∀ x ∈ t, x ≤ 1 := fun x hx => h x (List.mem_cons_of_mem _ hx)
    have hle := sum_le_length t ht
    have iht := ih ht
    simp only [List.length_cons, List.sum_cons, List.mem_cons]
    constructor
    · intro he
      have ha1 : a = 1 := by omega
      have hts : t.length = t.sum := by omega
      intro x hx
      rcases hx with rfl | hx
      · exact ha1
      · exact iht.mp hts x hx
    · intro hall
      have ha1 : a = 1 := hall a (Or.inl rfl)
      have hts : t.length = t.sum := iht.mpr (fun x hx => hall x (Or.inr hx))
      omega

/-- Example database for the diagnostic claims: the college exists, two
year tables exist, both with no rows. -/
def dbYears : DB :=
  { college := [[("college_id", Val.num 1), ("INSTNM", Val.text "Alpha")]],
    yearTables := [(2000, []), (2001, [])] }

/-- A year-scoped request over 2000-2001 that matches zero rows. -/
def sEnroll : SeriesPlot := ⟨"Alpha", "ENROLL", 2000, 2001, false, []⟩

/-- C5 counterexample: a year-scoped request over two years with zero
matching rows emits two diagnostics, one per year, not exactly one. -/
theorem thm_C5_counterexample :
    queryOne dbYears sEnroll = some ([], 2) ∧ (2 : Nat) ≠ 1 := by
  refine ⟨by decide, by decide⟩

/-- C5 amended: a year-scoped request whose lookups match zero rows emits
one diagnostic per year in its range (so end - start + 1 of them), an
entity-scoped request with no matching row emits exactly one; the
unsatisfied request is resolved to an empty data list and, in the layout
pass, contributes only a turned-off axis and a popup (no scatter, hence
no legend entry); and every other request in the batch is resolved
independently of it. -/
theorem thm_C5_amended :
    (∀ (db : DB) (s : SeriesPlot),
      s.is_college = false →
      (∀ y ∈ yearsBetween s.start_year s.end_year,
        yearQuery db s.data_type y s.college = some []) →
      queryOne db s = some ([], (yearsBetween s.start_year s.end_year).length)) ∧
    (∀ (db : DB) (s : SeriesPlot),
      s.is_college = true → collegeQuery db s.data_type s.college = [] →
      queryOne db s = some ([], 1)) ∧
    (∀ (db : DB) (pre post : List SeriesPlot) (s : SeriesPlot),
      query_db db (pre ++ s :: post) = do
        let a ← query_db db pre
        let r ← queryOne db s
        let b ← query_db db post
        pure (a ++ r :: b)) ∧
    (∀ (acc : List AxisState × List String × Nat) (s : SeriesPlot),
      s.is_college = false → s.data = [] →
      processSeries acc s = some (acc.1 ++ [{ axis_off := true }],
        acc.2.1 ++ [diagMsg s], acc.2.2)) := by
  refine ⟨?_, ?_, ?_, ?_⟩
  · intro db s h1 h2
    simp only [queryOne, h1, Bool.false_eq_true, if_false]
    exact queryYears_all_empty db s.data_type s.college _ h2
  · intro db s h1 h2
    simp [queryOne, h1, h2]
  · intro db pre post s
    induction pre with
    | nil =>
      simp [query_db]
    | cons p pre ih =>
      simp only [List.cons_append, query_db]
      rw [List.append_eq, ih]
      cases queryOne db p <;> simp
      cases query_db db pre <;> simp
      cases queryOne db s <;> simp
      cases query_db db post <;> simp
  · intro acc s h1 h2
    obtain ⟨axes, diags, count⟩ := acc
    simp [processSeries, get_xy_data, h1, h2]

/-- C5 amended witness: the two-year request of the counterexample gets
one diagnostic per year of its range; an entity request for an unknown
college gets exactly one; the unsatisfied request only turns its axis off
and raises its popup. -/
theorem thm_C5_amended_witness :
    (queryOne dbYears sEnroll =
      some ([], (yearsBetween sEnroll.start_year sEnroll.end_year).length)) ∧
    (yearsBetween sEnroll.start_year sEnroll.end_year).length = 2 ∧
    queryOne dbAlpha sFoundedBad = some ([], 1) ∧
    processSeries ([], [], 0) sEnroll =
      some ([{ axis_off := true }], [diagMsg sEnroll], 0) := by
  refine ⟨thm_C5_amended.1 dbYears sEnroll rfl (by decide), by decide,
          thm_C5_amended.2.1 dbAlpha sFoundedBad rfl (by decide),
          thm_C5_amended.2.2.2 ([], [], 0) sEnroll rfl rfl⟩

/-- An entity-scoped request whose year range is reversed. -/
def sFoundedRev : SeriesPlot := ⟨"Alpha", "FOUNDED", 2005, 2000, true, []⟩

/-- C6 counterexample: a request with start year strictly greater than end
year does not always resolve to an empty value sequence --- an
entity-scoped request ignores the year range and still returns its one
entity value. -/
theorem thm_C6_counterexample :
    queryOne dbAlpha sFoundedRev = some ([Val.num 7], 0) ∧
    ([Val.num 7] : List Val) ≠ [] := by
  refine ⟨by decide, by decide⟩

/-- The one row of the example year table. -/
def rowOneYear : Row := [("college_id", Val.num 1), ("ENROLL", Val.num 5)]

/-- Example database with one college and one one-row year table. -/
def dbOneYear : DB :=
  { college := [[("college_id", Val.num 1), ("INSTNM", Val.text "Alpha")]],
    yearTables := [(2000, [rowOneYear])] }

/-- A year-scoped request whose start year equals its end year. -/
def sOneYear : SeriesPlot := ⟨"Alpha", "ENROLL", 2000, 2000, false, []⟩

/-- A year-scoped request whose year range is reversed. -/
def sEnrollRev : SeriesPlot := ⟨"Alpha", "ENROLL", 2005, 2000, false, []⟩

/-- C6 amended: a year-scoped request with start year equal to end year
queries exactly one year table and, under the schema uniqueness of INSTNM
and of college_id per year table, returns at most one value without
error; a year-scoped request with start year strictly greater than end
year returns the empty value sequence with no diagnostic and no error;
an entity-scoped request ignores its year range entirely and returns the
entity lookup result whatever the range is. -/
theorem thm_C6_amended :
    (∀ (db : DB) (s : SeriesPlot) (tbl : List Row),
      s.is_college = false → s.start_year = s.end_year →
      db.yearTables.lookup s.start_year = some tbl →
      uniqINSTNM db.college s.college → uniqCollegeId tbl →
      queryOne db s = some (joinQuery tbl db.college s.data_type s.college,
        if (joinQuery tbl db.college s.data_type s.college).length = 0 then 1 else 0) ∧
      (joinQuery tbl db.college s.data_type s.college).length ≤ 1) ∧
    (∀ (db : DB) (s : SeriesPlot),
      s.is_college = false → s.end_year < s.start_year →
      queryOne db s = some ([], 0)) ∧
    (∀ (db : DB) (s : SeriesPlot),
      s.is_college = true →
      queryOne db s = some (collegeQuery db s.data_type s.college,
        if (collegeQuery db s.data_type s.college).length = 0 then 1 else 0)) := by
  refine ⟨?_, ?_, ?_⟩
  · intro db s tbl h1 h2 hlk hC hT
    refine ⟨?_, joinQuery_length_le_one tbl db.college s.data_type s.college hC hT⟩
    simp only [queryOne, h1, Bool.false_eq_true, if_false]
    rw [← h2, yearsBetween_self]
    simp [queryYears, yearQuery, hlk]
  · intro db s h1 h2
    simp [queryOne, h1, yearsBetween_nil _ _ h2, queryYears]
  · intro db s h1
    simp [queryOne, h1]

/-- C6 amended witness: on the one-row example database the singleton
range 2000-2000 returns the one joined value; the reversed range returns
no values and no diagnostics; the entity request with a reversed range
still returns its constant. -/
theorem thm_C6_amended_witness :
    queryOne dbOneYear sOneYear =
      some (joinQuery [rowOneYear] dbOneYear.college sOneYear.data_type sOneYear.college,
        if (joinQuery [rowOneYear] dbOneYear.college sOneYear.data_type
            sOneYear.college).length = 0 then 1 else 0) ∧
    (joinQuery [rowOneYear] dbOneYear.college sOneYear.data_type sOneYear.college).length ≤ 1 ∧
    queryOne dbOneYear sEnrollRev = some ([], 0) ∧
    queryOne dbAlpha sFoundedRev =
      some (collegeQuery dbAlpha sFoundedRev.data_type sFoundedRev.college,
        if (collegeQuery dbAlpha sFoundedRev.data_type
            sFoundedRev.college).length = 0 then 1 else 0) := by
  have h := thm_C6_amended.1 dbOneYear sOneYear [rowOneYear] rfl rfl rfl
    (by unfold uniqINSTNM; decide) (by unfold uniqCollegeId; simp)
  exact ⟨h.1, h.2, thm_C6_amended.2.1 dbOneYear sEnrollRev rfl (by decide),
         thm_C6_amended.2.2 dbAlpha sFoundedRev rfl⟩

/-- C10: for a year-scoped request with start year at most end year whose
year tables all exist, get_xy_data returns the full x sequence of length
end - start + 1 and the retrieved values unpadded as the y sequence; under
the schema uniqueness assumptions the two sequences have equal length
exactly when every year of the range matched exactly one row. -/
theorem thm_C10 (db : DB) (s : SeriesPlot) (d : List Val) (g : Nat)
    (h1 : s.is_college = false)
    (h2 : s.start_year ≤ s.end_year)
    (h3 : ∀ y ∈ yearsBetween s.start_year s.end_year, ∃ tbl,
      db.yearTables.lookup y = some tbl ∧ uniqCollegeId tbl)
    (hC : uniqINSTNM db.college s.college)
    (hq : queryOne db s = some (d, g)) :
    get_xy_data { s with data := d } =
      some (yearsBetween s.start_year s.end_year, d) ∧
    (yearsBetween s.start_year s.end_year).length = s.end_year - s.start_year + 1 ∧
    ((yearsBetween s.start_year s.end_year).length = d.length ↔
      ∀ y ∈ yearsBetween s.start_year s.end_year,
        ((yearQuery db s.data_type y s.college).getD []).length = 1) := by
  have hxy : get_xy_data { s with data := d } =
      some (yearsBetween s.start_year s.end_year, d) := by
    simp [get_xy_data, h1]
  have hlen : (yearsBetween s.start_year s.end_year).length =
      s.end_year - s.start_year + 1 := by
    rw [yearsBetween_length]
    omega
  set ys := yearsBetween s.start_year s.end_year with hys
  have hsome : ∀ y ∈ ys, (yearQuery db s.data_type y s.college).isSome := by
    intro y hy
    obtain ⟨tbl, hlk, _⟩ := h3 y hy
    simp [yearQuery, hlk]
  obtain ⟨g2, hg2⟩ := queryYears_join db s.data_type s.college ys hsome
  have hq' : queryYears db s.data_type s.college ys = some (d, g) := by
    simpa [queryOne, h1, ← hys] using hq
  rw [hg2] at hq'
  have hd : (ys.map (fun y => (yearQuery db s.data_type y s.college).getD [])).flatten
      = d := congrArg Prod.fst (Option.some.inj hq')
  have hle1 : ∀ y ∈ ys, ((yearQuery db s.data_type y s.college).getD []).length ≤ 1 := by
    intro y hy
    obtain ⟨tbl, hlk, hT⟩ := h3 y hy
    rw [yearQuery, hlk]
    simpa using joinQuery_length_le_one tbl db.college s.data_type s.college hC hT
  refine ⟨hxy, hlen, ?_⟩
  rw [← hd, List.length_flatten, List.map_map]
  simp only [Function.comp_def]
  have hmem : ∀ x ∈ ys.map
      (fun y => ((yearQuery db s.data_type y s.college).getD []).length), x ≤ 1 := by
    intro x hx
    obtain ⟨y, hy, rfl⟩ := List.mem_map.mp hx
    exact hle1 y hy
  constructor
  · intro hl y hy
    have hls : (ys.map (fun y =>
        ((yearQuery db s.data_type y s.college).getD []).length)).length =
        (ys.map (fun y =>
        ((yearQuery db s.data_type y s.college).getD []).length)).sum := by
      rw [List.length_map]
      exact hl
    exact (length_eq_sum_iff _ hmem).mp hls _ (List.mem_map_of_mem _ hy)
  · intro hr
    have hall : ∀ x ∈ ys.map (fun y =>
        ((yearQuery db s.data_type y s.college).getD []).length), x = 1 := by
      intro x hx
      obtain ⟨y, hy, rfl⟩ := List.mem_map.mp hx
      exact hr y hy
    have := (length_eq_sum_iff _ hmem).mpr hall
    rw [List.length_map] at this
    exact this

/-- A well-populated example database: one college, two year tables with
one matching row each. -/
def dbTwoYears : DB :=
  { college := [[("college_id", Val.num 1), ("INSTNM", Val.text "Alpha")]],
    yearTables := [(2000, [[("college_id", Val.num 1), ("ENROLL", Val.num 10)]]),
                   (2001, [[("college_id", Val.num 1), ("ENROLL", Val.num 12)]])] }

/-- A year-scoped request over both years of dbTwoYears. -/
def sTwoYears : SeriesPlot := ⟨"Alpha", "ENROLL", 2000, 2001, false, []⟩

/-- C10 witness: on the populated example the queried series expands to
the two-year x sequence with its two retrieved values. -/
theorem thm_C10_witness :
    get_xy_data { sTwoYears with data := [Val.num 10, Val.num 12] } =
      some (yearsBetween sTwoYears.start_year sTwoYears.end_year,
        [Val.num 10, Val.num 12]) ∧
    (yearsBetween sTwoYears.start_year sTwoYears.end_year).length =
      sTwoYears.end_year - sTwoYears.start_year + 1 := by
  have h3 : ∀ y ∈ yearsBetween sTwoYears.start_year sTwoYears.end_year, ∃ tbl,
      dbTwoYears.yearTables.lookup y = some tbl ∧ uniqCollegeId tbl := by
    intro y hy
    rw [show yearsBetween sTwoYears.start_year sTwoYears.end_year
        = [2000, 2001] by decide] at hy
    rcases List.mem_cons.mp hy with rfl | hy2
    · exact ⟨_, rfl, by unfold uniqCollegeId; simp⟩
    · rcases List.mem_singleton.mp hy2 with rfl
      exact ⟨_, rfl, by unfold uniqCollegeId; simp⟩
  have h := thm_C10 dbTwoYears sTwoYears [Val.num 10, Val.num 12] 0 rfl (by decide)
    h3 (by unfold uniqINSTNM; decide) (by decide)
  exact ⟨h.1, h.2.1⟩

end CollegeScvis
